import Mathlib

/-!
Shallow embedding of the ICU clinical-calculator (src/app.py) in Lean 4.

Numbers are modelled by `ℚ`. Python functions that return `None` on a
failed precondition are modelled with `Option`; a code path on which the
Python program would raise an uncaught `ZeroDivisionError` is modelled by
a dedicated `crash` constructor of the result type. Python's `round(x, n)`
(round-half-to-even to `n` decimal places) is modelled exactly on `ℚ`.
-/

namespace ICUTool

/-- Round-half-to-even to the nearest integer, as Python's builtin `round`. -/
def roundHalfEven (x : ℚ) : ℤ :=
  let f := ⌊x⌋
  let r := x - f
  if r < 1/2 then f
  else if r > 1/2 then f + 1
  else if f % 2 = 0 then f else f + 1

/-- Python's `round(x, n)`: round-half-to-even to `n` decimal places. -/
def roundTo (n : ℕ) (x : ℚ) : ℚ :=
  ((roundHalfEven (x * 10 ^ n) : ℚ)) / 10 ^ n

/-! ## Clinical constants (src/app.py lines 33-50) -/

def FORRESTER_CI : ℚ := 2.2

def FORRESTER_PCWP : ℚ := 18.0

def FENA_PRERENAL : ℚ := 1.0

def FENA_ATN : ℚ := 2.0

def FEUREA_PRERENAL : ℚ := 35.0

/-- Molar weights table `MOL_WEIGHTS` (src/app.py lines 43-46). -/
inductive Ion : Type
  | Na | K | Cl | Ca | Mg | P
deriving DecidableEq

def MOL_WEIGHTS : Ion → ℚ
  | .Na => 23.0
  | .K => 39.1
  | .Cl => 35.5
  | .Ca => 40.1
  | .Mg => 24.3
  | .P => 31.0

/-- Valence table `VALENCES` (src/app.py lines 47-50). -/
def VALENCES : Ion → ℚ
  | .Na => 1
  | .K => 1
  | .Cl => 1
  | .Ca => 2
  | .Mg => 2
  | .P => 1

/-! ## Logic functions (src/app.py lines 184-213) -/

/-- Result dictionary of `calc_gamma`: keys `conc`, `mg_h`, `gamma`. -/
structure GammaResult : Type where
  conc : ℚ
  mg_h : ℚ
  gamma : Option ℚ
deriving DecidableEq

/-- `calc_gamma(drug_mg, sol_ml, flow, wt=None)` (src/app.py lines 184-199).
Returns `none` when a required quantity is not strictly positive; the
Python test `wt and wt > 0` holds exactly for a supplied weight `> 0`. -/
def calc_gamma (drug_mg sol_ml flow : ℚ) (wt : Option ℚ) : Option GammaResult :=
  if drug_mg ≤ 0 ∨ sol_ml ≤ 0 ∨ flow ≤ 0 then none
  else
    let conc := drug_mg / sol_ml
    let mg_h := flow * conc
    let g : Option ℚ :=
      match wt with
      | some w => if 0 < w then some ((mg_h * 1000) / (w * 60)) else none
      | none => none
    some ⟨conc, mg_h, g⟩

/-- `calc_ccr(age, wt, scr, sex)` (src/app.py lines 201-205). `sex` is the
radio-button string, `"女性"` selecting the female correction. -/
def calc_ccr (age wt scr : ℚ) (sex : String) : Option ℚ :=
  if scr ≤ 0 then none
  else
    let ccr := ((140 - age) * wt) / (72 * scr)
    if sex = "女性" then some (ccr * 0.85) else some ccr

/-- `calc_fena(p_na, u_na, p_cr, u_cr)` (src/app.py lines 207-209). -/
def calc_fena (p_na u_na p_cr u_cr : ℚ) : Option ℚ :=
  if p_na * u_cr = 0 then none
  else some ((u_na * p_cr) / (p_na * u_cr) * 100)

/-- `calc_feurea(p_urea, u_urea, p_cr, u_cr)` (src/app.py lines 211-213). -/
def calc_feurea (p_urea u_urea p_cr u_cr : ℚ) : Option ℚ :=
  if p_urea * u_cr = 0 then none
  else some ((u_urea * p_cr) / (p_urea * u_cr) * 100)

/-- FeNa classification in `render_renal_diff` (src/app.py lines 565-567):
default label, overridden below `FENA_PRERENAL` and above `FENA_ATN`. -/
def fenaState (fena : ℚ) : String :=
  if fena < FENA_PRERENAL then "腎前性 (脱水/心不全)"
  else if fena > FENA_ATN then "腎性 (ATN確定?)"
  else "腎性 (ATN等)"

/-- CCr severity bucket in `render_ccr_module` (src/app.py lines 351-358). -/
def ccrCategory (val : ℚ) : String :=
  if val < 30 then "高度低下 (<30)"
  else if val < 60 then "中等度低下 (30-60)"
  else "正常 (>60)"

/-! ## Acid-base interpreter `render_ab_module` (src/app.py lines 387-427) -/

/-- pH classification (src/app.py lines 394-396). -/
inductive PHClass : Type
  | acidemia | alkalemia | normalRange
deriving DecidableEq

/-- One entry of the `detail` list built by `render_ab_module`
(src/app.py lines 400-416), in source order:
`hyperchloremic` = "高Cl性アシドーシス合併? (Ratio<0.4)",
`metAlkalosis` = "代謝性アルカローシス合併? (Ratio>2.0)",
`expPco2Note v` = "予測PaCO2: v±2",
`respAcidosis` = "呼吸性代償不全 (Resp Acidosis)",
`respAlkalosis` = "過代償 (Resp Alkalosis)". -/
inductive ABDetail : Type
  | hyperchloremic
  | metAlkalosis
  | expPco2Note (v : ℚ)
  | respAcidosis
  | respAlkalosis
deriving DecidableEq

/-- Detail entries appended under `if is_high_ag:` (src/app.py lines
402-409): the delta-ratio step, guarded only by `d_hco3 != 0`. -/
def abGapDetails (ag_corr hco3 : ℚ) : List ABDetail :=
  if ag_corr > 12 then
    if 24 - hco3 ≠ 0 then
      let r := (ag_corr - 12) / (24 - hco3)
      if r < 0.4 then [.hyperchloremic]
      else if r > 2.0 then [.metAlkalosis]
      else []
    else []
  else []

/-- Detail entries appended by the Winter's-formula check
(src/app.py lines 411-416). -/
def abWinterDetails (ph pco2 hco3 : ℚ) : List ABDetail :=
  if hco3 < 24 ∧ ph < 7.40 then
    let exp_pco2 := 1.5 * hco3 + 8
    .expPco2Note exp_pco2 ::
      (if pco2 > exp_pco2 + 2 then [.respAcidosis]
       else if pco2 < exp_pco2 - 2 then [.respAlkalosis]
       else [])
  else []

/-- Output of the acid-base interpretation: the anion gap, the corrected
gap, the pH class, whether " (AG開大)" was appended to the state line
(src/app.py line 403), and the `detail` list. -/
structure ABResult : Type where
  ag : ℚ
  ag_corr : ℚ
  phClass : PHClass
  highAG : Bool
  details : List ABDetail
deriving DecidableEq

/-- The computation of `render_ab_module` after submission
(src/app.py lines 388-416). -/
def abInterpret (ph pco2 hco3 na cl alb : ℚ) : ABResult :=
  let ag := na - (cl + hco3)
  let ag_corr := ag + 2.5 * (4.0 - alb)
  let phClass : PHClass :=
    if ph < 7.35 then .acidemia
    else if ph > 7.45 then .alkalemia
    else .normalRange
  ⟨ag, ag_corr, phClass, decide (ag_corr > 12),
    abGapDetails ag_corr hco3 ++ abWinterDetails ph pco2 hco3⟩

/-! ## Forrester classifier `render_hf_module` (src/app.py lines 498-534) -/

/-- The computation of `render_hf_module` after submission: `none` models
the blocking error on `bsa <= 0`; otherwise the subset label and the
recommended treatment string. -/
def forrester (co bsa pcwp : ℚ) : Option (String × String) :=
  if bsa ≤ 0 then none
  else
    let ci := co / bsa
    let is_wet := pcwp ≥ FORRESTER_PCWP
    let is_cold := ci < FORRESTER_CI
    if is_wet ∧ ¬ is_cold then some ("II (Warm/Wet)", "血管拡張薬 + 利尿薬")
    else if ¬ is_wet ∧ is_cold then some ("III (Cold/Dry)", "輸液負荷 (Volume Check) + 強心薬")
    else if is_wet ∧ is_cold then some ("IV (Cold/Wet)", "強心薬 + 昇圧薬 + 補助循環")
    else some ("I (Warm/Dry)", "経過観察")

/-! ## Electrolyte conversion `render_calc_tools` (src/app.py lines 592-614) -/

/-- The input-unit radio button: "mg/dL" or "mmol/L (mEq/L)". -/
inductive EUnit : Type
  | mgdl | mmolL
deriving DecidableEq

/-- The three values printed by `render_calc_tools`. -/
structure ConvResult : Type where
  res_mg : ℚ
  res_mmol : ℚ
  res_meq : ℚ
deriving DecidableEq

/-- The conversion performed by `render_calc_tools` (src/app.py lines
594-609). -/
def convertIon (ion : Ion) (val : ℚ) (unit : EUnit) : ConvResult :=
  let mw := MOL_WEIGHTS ion
  let v := VALENCES ion
  match unit with
  | .mgdl =>
    let res_mmol := (val * 10) / mw
    ⟨val, res_mmol, res_mmol * v⟩
  | .mmolL =>
    ⟨(val * mw) / 10, val, val * v⟩

/-! ## Form compute paths (src/app.py lines 247-269 and 332-358)

The submitted text fields are modelled after `safe_parse_number`: an
`Option ℚ`, `none` for a blank or unparseable field. A path on which the
Python code would divide by zero (the inline γ arithmetic has no
positivity guard) is modelled by `crash`. -/

/-- Result of a form submission: blocking missing-input error, uncaught
`ZeroDivisionError`, or a displayed result. -/
inductive FormResult (α : Type) : Type
  | missing
  | crash
  | ok (a : α)
deriving DecidableEq

/-- The compute path of `render_gamma_module` after submission
(src/app.py lines 247-269): validate presence, round the parsed inputs to
one decimal place, then apply the inline formulas. The weight test
`if wt and wt > 0` uses the raw parsed weight; the weight is rounded only
afterwards (line 268), so a positive weight that rounds to zero reaches
the division `(mg_h * 1000) / (wt * 60)` with `wt == 0`. -/
def renderGammaCompute (mgS mlS flowS wtS : Option ℚ) : FormResult GammaResult :=
  match mgS, mlS, flowS with
  | some mg0, some ml0, some flow0 =>
    let drug_mg := roundTo 1 mg0
    let sol_ml := roundTo 1 ml0
    let flow := roundTo 1 flow0
    if sol_ml = 0 then .crash
    else
      let conc := drug_mg / sol_ml
      let mg_h := flow * conc
      match wtS with
      | some w =>
        if 0 < w then
          let w1 := roundTo 1 w
          if w1 = 0 then .crash
          else .ok ⟨conc, mg_h, some ((mg_h * 1000) / (w1 * 60))⟩
        else .ok ⟨conc, mg_h, none⟩
      | none => .ok ⟨conc, mg_h, none⟩
  | _, _, _ => .missing

/-- Result of the CCr form: missing-input error, the `calc_ccr is None`
error (Scr ≤ 0), or the displayed value with its severity label. -/
inductive CcrOut : Type
  | missing
  | invalidScr
  | ok (v : ℚ) (cat : String)
deriving DecidableEq

/-- Display step of `render_ccr_module` (src/app.py lines 346-358):
`calc_ccr is None` is the blocking Scr error, otherwise the value is
shown with its severity bucket. -/
def renderCcrDisplay : Option ℚ → CcrOut
  | none => .invalidScr
  | some val => .ok val (ccrCategory val)

/-- The compute path of `render_ccr_module` after submission
(src/app.py lines 332-358): `age = int(round(age))`, `wt = round(wt, 1)`,
`scr = round(scr, 2)`, then `calc_ccr` and the severity bucket. -/
def renderCcrCompute (ageS wtS scrS : Option ℚ) (sex : String) : CcrOut :=
  match ageS, wtS, scrS with
  | some age0, some wt0, some scr0 =>
    renderCcrDisplay
      (calc_ccr ((roundHalfEven age0 : ℤ) : ℚ) (roundTo 1 wt0) (roundTo 2 scr0) sex)
  | _, _, _ => .missing

/-! ## JSON draft export/import `render_export_import`
(src/app.py lines 641-679) -/

/-- A session-state / JSON value: string, number, boolean or null. -/
inductive SVal : Type
  | str (s : String)
  | num (q : ℚ)
  | boolean (b : Bool)
  | null
deriving DecidableEq

/-- The fixed allow-list `export_keys` (src/app.py lines 649-653). -/
def export_keys : List String :=
  ["gamma_preset", "gamma_mg_str", "gamma_ml_str", "gamma_flow_str", "gamma_wt_str",
   "ccr_age_str", "ccr_weight_str", "ccr_scr_str", "ccr_sex",
   "ab_ph_str", "ab_pco2_str", "ab_hco3_str", "ab_na_str", "ab_cl_str", "ab_alb_str"]

/-- The dictionary `DRUG_PRESETS` (src/app.py lines 53-64) as the lookup
`DRUG_PRESETS.get(key, {"mg": 0.0, "ml": 0.0})`: `(mg, ml)` pairs. -/
def DRUG_PRESETS (key : String) : ℚ × ℚ :=
  if key = "カスタム" then (0.0, 0.0)
  else if key = "Norepinephrine (NAD)" then (5.0, 50.0)
  else if key = "Dobutamine (DOB)" then (150.0, 50.0)
  else if key = "Dopamine (DOA)" then (150.0, 50.0)
  else if key = "Nicardipine" then (50.0, 50.0)
  else if key = "Midazolam" then (50.0, 50.0)
  else if key = "Propofol" then (1000.0, 100.0)
  else if key = "Dexmedetomidine" then (0.2, 50.0)
  else if key = "Nitroglycerin" then (50.0, 100.0)
  else if key = "Carperitide" then (3.0, 50.0)
  else (0.0, 0.0)

/-- Python's `str()` on the preset floats: every `DRUG_PRESETS` entry is a
non-negative multiple of 0.1, rendered with one fractional digit. -/
def pyStrOneDec (q : ℚ) : String :=
  let n := (q * 10).num
  toString (n / 10) ++ "." ++ toString (n % 10)

/-- The Streamlit session state restricted to the draft keys. -/
def Session : Type := String → SVal

/-- `preset_apply_to_session` (src/app.py lines 94-104): looks the preset
up in `DRUG_PRESETS` (a non-string key misses and yields the default) and
writes `str(mg)` / `str(ml)` into `gamma_mg_str` / `gamma_ml_str`. -/
def preset_apply_to_session (state : Session) (preset_key : SVal) : Session :=
  let d := match preset_key with
    | .str s => DRUG_PRESETS s
    | _ => (0.0, 0.0)
  fun k =>
    if k = "gamma_mg_str" then .str (pyStrOneDec d.1)
    else if k = "gamma_ml_str" then .str (pyStrOneDec d.2)
    else state k

/-- One iteration of the import loop (src/app.py lines 670-675): keys not
in `export_keys` are skipped; `gamma_preset` additionally triggers
`preset_apply_to_session`. -/
def applyImportKey (state : Session) (kv : String × SVal) : Session :=
  if kv.1 ∈ export_keys then
    let s1 : Session := fun k => if k = kv.1 then kv.2 else state k
    if kv.1 = "gamma_preset" then preset_apply_to_session s1 kv.2 else s1
  else state

/-- The import path of `render_export_import` (src/app.py lines 666-679):
`none` models a file `json.load` fails on (the `except` branch reports a
load error and never touches the state); a parsed object is folded over
its key/value pairs. The `Bool` is `true` on the success message. -/
def importDraft (state : Session) (parsed : Option (List (String × SVal))) :
    Session × Bool :=
  match parsed with
  | none => (state, false)
  | some kvs => (kvs.foldl applyImportKey state, true)

/-! ## Helper lemmas -/

lemma hyper_mem_gap (a h : ℚ) :
    ABDetail.hyperchloremic ∈ abGapDetails a h ↔
      a > 12 ∧ h ≠ 24 ∧ (a - 12) / (24 - h) < 0.4 := by
  have hne : (24 - h ≠ 0) ↔ (h ≠ 24) := sub_ne_zero.trans ne_comm
  simp only [abGapDetails]
  split_ifs with h1 h2 h3 h4 <;> simp_all

lemma metalk_mem_gap (a h : ℚ) :
    ABDetail.metAlkalosis ∈ abGapDetails a h ↔
      a > 12 ∧ h ≠ 24 ∧ (a - 12) / (24 - h) > 2.0 := by
  have hne : (24 - h ≠ 0) ↔ (h ≠ 24) := sub_ne_zero.trans ne_comm
  simp only [abGapDetails]
  split_ifs with h1 h2 h3 h4 <;> simp_all
  linarith

lemma respacid_mem_winter (ph pco2 h : ℚ) :
    ABDetail.respAcidosis ∈ abWinterDetails ph pco2 h ↔
      h < 24 ∧ ph < 7.40 ∧ pco2 > 1.5 * h + 8 + 2 := by
  simp only [abWinterDetails]
  split_ifs with h1 h2 h3 <;> simp_all [and_assoc]

lemma respalk_mem_winter (ph pco2 h : ℚ) :
    ABDetail.respAlkalosis ∈ abWinterDetails ph pco2 h ↔
      h < 24 ∧ ph < 7.40 ∧ pco2 < 1.5 * h + 8 - 2 := by
  simp only [abWinterDetails]
  split_ifs with h1 h2 h3 <;> simp_all [and_assoc]
  linarith

lemma hyper_not_mem_winter (ph pco2 h : ℚ) :
    ABDetail.hyperchloremic ∉ abWinterDetails ph pco2 h := by
  simp only [abWinterDetails]
  split_ifs <;> simp

lemma metalk_not_mem_winter (ph pco2 h : ℚ) :
    ABDetail.metAlkalosis ∉ abWinterDetails ph pco2 h := by
  simp only [abWinterDetails]
  split_ifs <;> simp

lemma respacid_not_mem_gap (a h : ℚ) :
    ABDetail.respAcidosis ∉ abGapDetails a h := by
  simp only [abGapDetails]
  split_ifs <;> simp

lemma respalk_not_mem_gap (a h : ℚ) :
    ABDetail.respAlkalosis ∉ abGapDetails a h := by
  simp only [abGapDetails]
  split_ifs <;> simp

lemma abInterpret_details (ph pco2 hco3 na cl alb : ℚ) :
    (abInterpret ph pco2 hco3 na cl alb).details =
      abGapDetails (na - (cl + hco3) + 2.5 * (4.0 - alb)) hco3 ++
        abWinterDetails ph pco2 hco3 := rfl

lemma abInterpret_highAG (ph pco2 hco3 na cl alb : ℚ) :
    (abInterpret ph pco2 hco3 na cl alb).highAG = true ↔
      na - (cl + hco3) + 2.5 * (4.0 - alb) > 12 := by
  simp [abInterpret]

lemma mol_weight_ne_zero (ion : Ion) : MOL_WEIGHTS ion ≠ 0 := by
  cases ion <;> norm_num [MOL_WEIGHTS]

lemma mem_export_mg : "gamma_mg_str" ∈ export_keys := by decide

lemma mem_export_ml : "gamma_ml_str" ∈ export_keys := by decide

lemma applyImportKey_outside (state : Session) (kv : String × SVal) (k : String)
    (hk : k ∉ export_keys) : applyImportKey state kv k = state k := by
  have hk1 : k ≠ "gamma_mg_str" := fun he => hk (he ▸ mem_export_mg)
  have hk2 : k ≠ "gamma_ml_str" := fun he => hk (he ▸ mem_export_ml)
  simp only [applyImportKey, preset_apply_to_session]
  split_ifs with h1 h2
  · have hk3 : k ≠ kv.1 := fun he => hk (he ▸ h1)
    simp [hk1, hk2, hk3]
  · have hk3 : k ≠ kv.1 := fun he => hk (he ▸ h1)
    simp [hk3]
  · rfl

lemma foldl_import_outside (kvs : List (String × SVal)) (state : Session)
    (k : String) (hk : k ∉ export_keys) :
    (kvs.foldl applyImportKey state) k = state k := by
  induction kvs generalizing state with
  | nil => rfl
  | cons kv rest ih =>
    rw [List.foldl_cons, ih (applyImportKey state kv)]
    exact applyImportKey_outside state kv k hk

/-! ## Claim theorems -/

/-- C2: `calc_fena` returns `none` (undefined, not an error) exactly when
`p_na * u_cr == 0`; otherwise it returns
`(u_na * p_cr) / (p_na * u_cr) * 100`; and the classification of a
defined FeNa value is: `< 1` prerenal ("腎前性 (脱水/心不全)"),
`> 2` intrinsic renal / ATN ("腎性 (ATN確定?)"), and for every value in
between the third, non-committal default label "腎性 (ATN等)". -/
theorem c2_fena :
    (∀ p_na u_na p_cr u_cr : ℚ,
      calc_fena p_na u_na p_cr u_cr = none ↔ p_na * u_cr = 0) ∧
    (∀ p_na u_na p_cr u_cr : ℚ, p_na * u_cr ≠ 0 →
      calc_fena p_na u_na p_cr u_cr = some ((u_na * p_cr) / (p_na * u_cr) * 100)) ∧
    (∀ f : ℚ, fenaState f = "腎前性 (脱水/心不全)" ↔ f < 1) ∧
    (∀ f : ℚ, fenaState f = "腎性 (ATN確定?)" ↔ f > 2) ∧
    (∀ f : ℚ, 1 ≤ f → f ≤ 2 → fenaState f = "腎性 (ATN等)") := by
  refine ⟨?_, ?_, ?_, ?_, ?_⟩
  · intro p u pc uc
    unfold calc_fena
    split_ifs with h <;> simp [h]
  · intro p u pc uc h
    unfold calc_fena
    rw [if_neg h]
  · intro f
    unfold fenaState FENA_PRERENAL FENA_ATN
    split_ifs with h1 h2
    · exact iff_of_true rfl (by linarith)
    · exact ⟨fun he => absurd he (by decide), fun hlt => absurd hlt (by linarith)⟩
    · exact ⟨fun he => absurd he (by decide), fun hlt => absurd hlt (by linarith)⟩
  · intro f
    unfold fenaState FENA_PRERENAL FENA_ATN
    split_ifs with h1 h2
    · exact ⟨fun he => absurd he (by decide), fun hgt => absurd hgt (by linarith)⟩
    · exact iff_of_true rfl (by linarith)
    · exact ⟨fun he => absurd he (by decide), fun hgt => absurd hgt (by linarith)⟩
  · intro f hge hle
    unfold fenaState FENA_PRERENAL FENA_ATN
    rw [if_neg (by linarith), if_neg (by linarith)]

/-- C2 witness: the spec's FeNa example (urine Na 20, plasma Na 140,
urine Cr 100, plasma Cr 1.0) is defined, and FeNa = 1.5 gets the default
middle label. -/
theorem c2_fena_witness :
    calc_fena 140 20 1 100 = some ((20 * 1) / ((140:ℚ) * 100) * 100) ∧
    fenaState (3/2) = "腎性 (ATN等)" :=
  ⟨c2_fena.2.1 140 20 1 100 (by norm_num),
   c2_fena.2.2.2.2 (3/2) (by norm_num) (by norm_num)⟩

/-- C3: `calc_gamma` fails (returns `none`) whenever drug mass, solvent
volume or flow rate is not strictly positive; for positive inputs it
returns concentration `mass/volume`, mass rate `flow × concentration`,
and the γ value `mass_rate × 1000 / (weight × 60)` exactly when a
positive weight is supplied; an absent or non-positive weight merely
leaves `gamma = none` without error. -/
theorem c3_gamma :
    (∀ (mg ml fl : ℚ) (w : Option ℚ), mg ≤ 0 ∨ ml ≤ 0 ∨ fl ≤ 0 →
      calc_gamma mg ml fl w = none) ∧
    (∀ mg ml fl : ℚ, 0 < mg → 0 < ml → 0 < fl →
      calc_gamma mg ml fl none = some ⟨mg / ml, fl * (mg / ml), none⟩ ∧
      (∀ w : ℚ, w ≤ 0 → calc_gamma mg ml fl (some w) =
        some ⟨mg / ml, fl * (mg / ml), none⟩) ∧
      (∀ w : ℚ, 0 < w → calc_gamma mg ml fl (some w) =
        some ⟨mg / ml, fl * (mg / ml),
          some ((fl * (mg / ml) * 1000) / (w * 60))⟩)) := by
  constructor
  · intro mg ml fl w h
    unfold calc_gamma
    rw [if_pos h]
  · intro mg ml fl h1 h2 h3
    have hng : ¬(mg ≤ 0 ∨ ml ≤ 0 ∨ fl ≤ 0) := by push_neg; exact ⟨h1, h2, h3⟩
    refine ⟨?_, ?_, ?_⟩
    · unfold calc_gamma
      rw [if_neg hng]
    · intro w hw
      unfold calc_gamma
      rw [if_neg hng]
      simp [not_lt.mpr hw]
    · intro w hw
      unfold calc_gamma
      rw [if_neg hng]
      simp [hw]

/-- C3 witness: the spec's γ example (5 mg in 50 mL at 5 mL/h, 50 kg). -/
theorem c3_gamma_witness :
    calc_gamma 5 50 5 (some 50) =
      some ⟨(5:ℚ) / 50, 5 * ((5:ℚ) / 50), some ((5 * ((5:ℚ) / 50) * 1000) / (50 * 60))⟩ :=
  (c3_gamma.2 5 50 5 (by norm_num) (by norm_num) (by norm_num)).2.2 50 (by norm_num)

/-- C5: `calc_ccr` fails when serum creatinine ≤ 0; for `Scr > 0` it
returns `(140 − age) × weight / (72 × Scr)`, multiplied by 0.85 exactly
when sex is female ("女性"), so the female value is 0.85 times the male
value for identical inputs; and the severity bucket has half-open lower
boundaries: `< 30` severe, `30 ≤ val < 60` moderate, `60 ≤ val` normal. -/
theorem c5_ccr :
    (∀ (age wt scr : ℚ) (sex : String), scr ≤ 0 → calc_ccr age wt scr sex = none) ∧
    (∀ age wt scr : ℚ, 0 < scr →
      calc_ccr age wt scr "男性" = some (((140 - age) * wt) / (72 * scr)) ∧
      calc_ccr age wt scr "女性" = some (((140 - age) * wt) / (72 * scr) * 0.85)) ∧
    (∀ age wt scr : ℚ,
      calc_ccr age wt scr "女性" =
        Option.map (fun v => v * 0.85) (calc_ccr age wt scr "男性")) ∧
    (∀ v : ℚ, ccrCategory v = "高度低下 (<30)" ↔ v < 30) ∧
    (∀ v : ℚ, ccrCategory v = "中等度低下 (30-60)" ↔ 30 ≤ v ∧ v < 60) ∧
    (∀ v : ℚ, ccrCategory v = "正常 (>60)" ↔ 60 ≤ v) := by
  refine ⟨?_, ?_, ?_, ?_, ?_, ?_⟩
  · intro age wt scr sex h
    unfold calc_ccr
    rw [if_pos h]
  · intro age wt scr h
    unfold calc_ccr
    rw [if_neg (not_le.mpr h), if_neg (by decide), if_neg (not_le.mpr h), if_pos rfl]
    exact ⟨rfl, rfl⟩
  · intro age wt scr
    by_cases h : scr ≤ 0
    · simp [calc_ccr, h]
    · simp [calc_ccr, h]
  · intro v
    unfold ccrCategory
    split_ifs with h1 h2
    · exact iff_of_true rfl h1
    · exact ⟨fun he => absurd he (by decide), fun hlt => absurd hlt (by linarith)⟩
    · exact ⟨fun he => absurd he (by decide), fun hlt => absurd hlt (by linarith)⟩
  · intro v
    unfold ccrCategory
    split_ifs with h1 h2
    · exact ⟨fun he => absurd he (by decide), fun hc => absurd h1 (not_lt.mpr hc.1)⟩
    · exact iff_of_true rfl ⟨not_lt.mp h1, h2⟩
    · exact ⟨fun he => absurd he (by decide), fun hc => absurd hc.2 h2⟩
  · intro v
    unfold ccrCategory
    split_ifs with h1 h2
    · exact ⟨fun he => absurd he (by decide), fun hge => absurd hge (by linarith)⟩
    · exact ⟨fun he => absurd he (by decide), fun hge => absurd hge (by linarith)⟩
    · exact iff_of_true rfl (not_lt.mp h2)

/-- C5 witness: the spec's Cockcroft-Gault example (age 60, 60 kg,
Scr 1.0, male) is defined and its value 66.67 mL/min falls in the normal
bucket. -/
theorem c5_ccr_witness :
    calc_ccr 60 60 1 "男性" = some ((((140:ℚ) - 60) * 60) / (72 * 1)) ∧
    ccrCategory (200/3) = "正常 (>60)" :=
  ⟨(c5_ccr.2.1 60 60 1 (by norm_num)).1,
   (c5_ccr.2.2.2.2.2 (200/3)).mpr (by norm_num)⟩

/-- C1 counterexample: the claim says the delta-ratio step runs only when
`HCO3 < 24`, but the code guards it only by `d_hco3 != 0`
(src/app.py line 406). At pH 7.3, PaCO2 40, HCO3 30, Na 140, Cl 86,
Alb 4.0 the corrected AG is 24 > 12, `HCO3 = 30 ≥ 24`, and the negative
delta-ratio `12 / (-6) = -2 < 0.4` still appends the concurrent
hyperchloremic-acidosis flag. -/
theorem c1_counterexample :
    ¬ (∀ ph pco2 hco3 na cl alb : ℚ,
        ABDetail.hyperchloremic ∈ (abInterpret ph pco2 hco3 na cl alb).details →
          hco3 < 24) := by
  intro hclaim
  have hm : ABDetail.hyperchloremic ∈ abGapDetails (140 - (86 + 30) + 2.5 * (4.0 - 4)) 30 :=
    (hyper_mem_gap _ _).mpr ⟨by norm_num, by norm_num, by norm_num⟩
  have h30 := hclaim 7.3 40 30 140 86 4
    (by rw [abInterpret_details]; exact List.mem_append_left _ hm)
  norm_num at h30

/-- C1 (amended): when corrected AG > 12 the result is flagged AG-open;
the delta-ratio `(corrected_AG − 12) / (24 − HCO3)` step runs whenever
additionally `HCO3 ≠ 24` (only the division-by-zero case `HCO3 == 24` is
skipped — not every `HCO3 ≥ 24`), and on every such input a ratio < 0.4
adds the concurrent hyperchloremic-acidosis flag and a ratio > 2.0 adds
the concurrent metabolic-alkalosis flag. -/
theorem c1_amended_delta_ratio (ph pco2 hco3 na cl alb : ℚ) :
    ((abInterpret ph pco2 hco3 na cl alb).highAG = true ↔
      na - (cl + hco3) + 2.5 * (4.0 - alb) > 12) ∧
    (ABDetail.hyperchloremic ∈ (abInterpret ph pco2 hco3 na cl alb).details ↔
      na - (cl + hco3) + 2.5 * (4.0 - alb) > 12 ∧ hco3 ≠ 24 ∧
        (na - (cl + hco3) + 2.5 * (4.0 - alb) - 12) / (24 - hco3) < 0.4) ∧
    (ABDetail.metAlkalosis ∈ (abInterpret ph pco2 hco3 na cl alb).details ↔
      na - (cl + hco3) + 2.5 * (4.0 - alb) > 12 ∧ hco3 ≠ 24 ∧
        (na - (cl + hco3) + 2.5 * (4.0 - alb) - 12) / (24 - hco3) > 2.0) := by
  refine ⟨abInterpret_highAG ph pco2 hco3 na cl alb, ?_, ?_⟩
  · rw [abInterpret_details, List.mem_append]
    simp [hyper_mem_gap, hyper_not_mem_winter]
  · rw [abInterpret_details, List.mem_append]
    simp [metalk_mem_gap, metalk_not_mem_winter]

/-- C4: the FeNa, FeUrea and delta-ratio computations return an undefined
result rather than raising on a zero denominator: `calc_fena` returns
`none` when `p_na * u_cr == 0`, `calc_feurea` returns `none` when
`p_urea * u_cr == 0`, and at `HCO3 == 24` the delta-ratio step of the
acid-base interpreter is skipped, so neither ratio flag can appear
(all modelled functions are total, so no exception is possible). -/
theorem c4_div_zero_guards :
    (∀ p_na u_na p_cr u_cr : ℚ, p_na * u_cr = 0 →
      calc_fena p_na u_na p_cr u_cr = none) ∧
    (∀ p_urea u_urea p_cr u_cr : ℚ, p_urea * u_cr = 0 →
      calc_feurea p_urea u_urea p_cr u_cr = none) ∧
    (∀ ph pco2 na cl alb : ℚ,
      ABDetail.hyperchloremic ∉ (abInterpret ph pco2 24 na cl alb).details ∧
      ABDetail.metAlkalosis ∉ (abInterpret ph pco2 24 na cl alb).details) := by
  refine ⟨?_, ?_, ?_⟩
  · intro p u pc uc h
    unfold calc_fena
    rw [if_pos h]
  · intro p u pc uc h
    unfold calc_feurea
    rw [if_pos h]
  · intro ph pco2 na cl alb
    constructor
    · rw [abInterpret_details, List.mem_append]
      simp [hyper_mem_gap, hyper_not_mem_winter]
    · rw [abInterpret_details, List.mem_append]
      simp [metalk_mem_gap, metalk_not_mem_winter]

/-- C4 witness: zero denominators at concrete inputs. -/
theorem c4_witness :
    calc_fena 0 20 1 100 = none ∧ calc_feurea 0 30 1 100 = none ∧
    ABDetail.hyperchloremic ∉ (abInterpret 7.3 40 24 140 100 4).details :=
  ⟨c4_div_zero_guards.1 0 20 1 100 (by norm_num),
   c4_div_zero_guards.2.1 0 30 1 100 (by norm_num),
   (c4_div_zero_guards.2.2 7.3 40 140 100 4).1⟩

/-- C7: Winter's formula check. The respiratory-acidosis complication
flag appears exactly when `HCO3 < 24`, `pH < 7.40` and the actual PaCO2
is strictly above the band `1.5 × HCO3 + 8 ± 2`; the
respiratory-alkalosis flag exactly when it is strictly below the band;
outside the precondition `HCO3 < 24 ∧ pH < 7.40` neither flag appears. -/
theorem c7_winter (ph pco2 hco3 na cl alb : ℚ) :
    (ABDetail.respAcidosis ∈ (abInterpret ph pco2 hco3 na cl alb).details ↔
      hco3 < 24 ∧ ph < 7.40 ∧ pco2 > 1.5 * hco3 + 8 + 2) ∧
    (ABDetail.respAlkalosis ∈ (abInterpret ph pco2 hco3 na cl alb).details ↔
      hco3 < 24 ∧ ph < 7.40 ∧ pco2 < 1.5 * hco3 + 8 - 2) := by
  constructor
  · rw [abInterpret_details, List.mem_append]
    simp [respacid_mem_winter, respacid_not_mem_gap]
  · rw [abInterpret_details, List.mem_append]
    simp [respalk_mem_winter, respalk_not_mem_gap]

/-- C6: JSON draft import applies only keys in the fixed allow-list
`export_keys` — any key outside it is never written, for an arbitrary
uploaded object — and a malformed file (failed `json.load`) reports a
load error and leaves every existing form value unchanged, with no
partial application. -/
theorem c6_import :
    (∀ state : Session, importDraft state none = (state, false)) ∧
    (∀ (state : Session) (kvs : List (String × SVal)) (k : String),
      k ∉ export_keys → (importDraft state (some kvs)).1 k = state k) := by
  constructor
  · intro state
    rfl
  · intro state kvs k hk
    exact foldl_import_outside kvs state k hk

/-- C6 witness: an uploaded object with an unknown key and a preset key
leaves a key outside the allow-list untouched. -/
theorem c6_import_witness :
    (importDraft (fun _ => SVal.null)
      (some [("unknown_key", SVal.num 1), ("gamma_preset", SVal.str "Propofol")])).1
        "other_key" = SVal.null :=
  c6_import.2 (fun _ => SVal.null)
    [("unknown_key", SVal.num 1), ("gamma_preset", SVal.str "Propofol")]
    "other_key" (by decide)

/-- C8: the Forrester classifier fails exactly when BSA ≤ 0; for BSA > 0
the patient is wet exactly when PCWP ≥ 18 and cold exactly when
CI = CO/BSA < 2.2, and the four combinations map to subsets
I (warm/dry, observe), II (warm/wet, vasodilator + diuretic),
III (cold/dry, fluid challenge + inotrope),
IV (cold/wet, inotrope + vasopressor + mechanical support). -/
theorem c8_forrester :
    (∀ co bsa pcwp : ℚ, forrester co bsa pcwp = none ↔ bsa ≤ 0) ∧
    (∀ co bsa pcwp : ℚ, 0 < bsa →
      (forrester co bsa pcwp = some ("I (Warm/Dry)", "経過観察") ↔
        pcwp < 18 ∧ 2.2 ≤ co / bsa) ∧
      (forrester co bsa pcwp = some ("II (Warm/Wet)", "血管拡張薬 + 利尿薬") ↔
        18 ≤ pcwp ∧ 2.2 ≤ co / bsa) ∧
      (forrester co bsa pcwp = some ("III (Cold/Dry)", "輸液負荷 (Volume Check) + 強心薬") ↔
        pcwp < 18 ∧ co / bsa < 2.2) ∧
      (forrester co bsa pcwp = some ("IV (Cold/Wet)", "強心薬 + 昇圧薬 + 補助循環") ↔
        18 ≤ pcwp ∧ co / bsa < 2.2)) := by
  constructor
  · intro co bsa pcwp
    rcases le_or_lt bsa 0 with h | h
    · unfold forrester
      rw [if_pos h]
      simp [h]
    · unfold forrester
      rw [if_neg (not_le.mpr h)]
      constructor
      · intro he
        simp only [ge_iff_le] at he
        split_ifs at he
      · intro hle
        exact absurd hle (not_le.mpr h)
  · intro co bsa pcwp hbsa
    have e18 : FORRESTER_PCWP = 18 := by norm_num [FORRESTER_PCWP]
    unfold forrester
    rw [if_neg (not_le.mpr hbsa), e18]
    rcases lt_or_le pcwp 18 with hw | hw <;> rcases lt_or_le (co / bsa) FORRESTER_CI with hc | hc
    · rw [if_neg (fun hcon => absurd hcon.1 (not_le.mpr hw)),
        if_pos ⟨not_le.mpr hw, hc⟩]
      refine ⟨?_, ?_, ?_, ?_⟩
      · exact iff_of_false (fun he => absurd (Option.some.inj he) (by decide))
          (fun hrhs => absurd hc (not_lt.mpr hrhs.2))
      · exact iff_of_false (fun he => absurd (Option.some.inj he) (by decide))
          (fun hrhs => absurd hw (not_lt.mpr hrhs.1))
      · exact iff_of_true rfl ⟨hw, hc⟩
      · exact iff_of_false (fun he => absurd (Option.some.inj he) (by decide))
          (fun hrhs => absurd hw (not_lt.mpr hrhs.1))
    · rw [if_neg (fun hcon => absurd hcon.1 (not_le.mpr hw)),
        if_neg (fun hcon => absurd hcon.2 (not_lt.mpr hc)),
        if_neg (fun hcon => absurd hcon.2 (not_lt.mpr hc))]
      refine ⟨?_, ?_, ?_, ?_⟩
      · exact iff_of_true rfl ⟨hw, hc⟩
      · exact iff_of_false (fun he => absurd (Option.some.inj he) (by decide))
          (fun hrhs => absurd hw (not_lt.mpr hrhs.1))
      · exact iff_of_false (fun he => absurd (Option.some.inj he) (by decide))
          (fun hrhs => absurd hrhs.2 (not_lt.mpr hc))
      · exact iff_of_false (fun he => absurd (Option.some.inj he) (by decide))
          (fun hrhs => absurd hw (not_lt.mpr hrhs.1))
    · rw [if_neg (fun hcon => hcon.2 hc), if_neg (fun hcon => hcon.1 hw),
        if_pos ⟨hw, hc⟩]
      refine ⟨?_, ?_, ?_, ?_⟩
      · exact iff_of_false (fun he => absurd (Option.some.inj he) (by decide))
          (fun hrhs => absurd hrhs.1 (not_lt.mpr hw))
      · exact iff_of_false (fun he => absurd (Option.some.inj he) (by decide))
          (fun hrhs => absurd hc (not_lt.mpr hrhs.2))
      · exact iff_of_false (fun he => absurd (Option.some.inj he) (by decide))
          (fun hrhs => absurd hrhs.1 (not_lt.mpr hw))
      · exact iff_of_true rfl ⟨hw, hc⟩
    · rw [if_pos ⟨hw, not_lt.mpr hc⟩]
      refine ⟨?_, ?_, ?_, ?_⟩
      · exact iff_of_false (fun he => absurd (Option.some.inj he) (by decide))
          (fun hrhs => absurd hrhs.1 (not_lt.mpr hw))
      · exact iff_of_true rfl ⟨hw, hc⟩
      · exact iff_of_false (fun he => absurd (Option.some.inj he) (by decide))
          (fun hrhs => absurd hrhs.1 (not_lt.mpr hw))
      · exact iff_of_false (fun he => absurd (Option.some.inj he) (by decide))
          (fun hrhs => absurd hrhs.2 (not_lt.mpr hc))

/-- C8 witness: CO 4 L/min, BSA 1.6 m², PCWP 20 gives CI 2.5 (warm) and
wet, i.e. subset II with vasodilator + diuretic. -/
theorem c8_forrester_witness :
    forrester 4 1.6 20 = some ("II (Warm/Wet)", "血管拡張薬 + 利尿薬") :=
  ((c8_forrester.2 4 1.6 20 (by norm_num)).2.1).mpr (by norm_num)

/-- C9: for every ion of the fixed set and every value,
mmol/L = mg/dL × 10 / molar_mass, mg/dL = mmol/L × molar_mass / 10,
mEq/L = mmol/L × valence, and the round trip mg/dL → mmol/L → mg/dL is
the identity (exactly, in `ℚ`). -/
theorem c9_conversion (ion : Ion) (val : ℚ) :
    ((convertIon ion val .mgdl).res_mmol = val * 10 / MOL_WEIGHTS ion) ∧
    ((convertIon ion val .mmolL).res_mg = val * MOL_WEIGHTS ion / 10) ∧
    (∀ u : EUnit, (convertIon ion val u).res_meq =
      (convertIon ion val u).res_mmol * VALENCES ion) ∧
    ((convertIon ion ((convertIon ion val .mgdl).res_mmol) .mmolL).res_mg = val) := by
  refine ⟨rfl, rfl, ?_, ?_⟩
  · intro u
    cases u <;> rfl
  · show val * 10 / MOL_WEIGHTS ion * MOL_WEIGHTS ion / 10 = val
    rw [div_mul_cancel₀ _ (mol_weight_ne_zero ion), mul_div_assoc]
    norm_num

/-- C10: the form compute paths round the parsed inputs before applying
the formulas. Whenever the γ form displays a result, its concentration is
`round1(mass)/round1(volume)`, its mass rate `round1(flow) × conc`, and
its γ (present exactly for a positive supplied weight) uses the rounded
weight; whenever the CCr form displays a value, it is `calc_ccr` of the
integer-rounded age, 1-dp weight and 2-dp Scr, with the bucket of that
value. The two final conjuncts separate this from the raw parsed values:
at mass 5.04 and Scr 0.987 the displayed values differ from the formulas
on the raw inputs. -/
theorem c10_rounding :
    (∀ (mg ml fl : ℚ) (wtS : Option ℚ) (r : GammaResult),
      renderGammaCompute (some mg) (some ml) (some fl) wtS = .ok r →
        r.conc = roundTo 1 mg / roundTo 1 ml ∧
        r.mg_h = roundTo 1 fl * r.conc ∧
        (wtS = none → r.gamma = none) ∧
        (∀ w : ℚ, wtS = some w → w ≤ 0 → r.gamma = none) ∧
        (∀ w : ℚ, wtS = some w → 0 < w →
          r.gamma = some ((r.mg_h * 1000) / (roundTo 1 w * 60)))) ∧
    (∀ (a w s : ℚ) (sex : String) (v : ℚ) (cat : String),
      renderCcrCompute (some a) (some w) (some s) sex = .ok v cat →
        calc_ccr ((roundHalfEven a : ℤ) : ℚ) (roundTo 1 w) (roundTo 2 s) sex = some v ∧
        cat = ccrCategory v) ∧
    (renderGammaCompute (some (126/25)) (some 50) (some 5) none = .ok ⟨1/10, 1/2, none⟩ ∧
      (1/2 : ℚ) ≠ 5 * ((126/25) / 50)) ∧
    (renderCcrCompute (some 60) (some 60) (some (987/1000)) "男性"
        = .ok (4800 / (72 * (99/100))) "正常 (>60)" ∧
      (4800 / (72 * (99/100)) : ℚ) ≠ ((140 - 60) * 60) / (72 * (987/1000))) := by
  refine ⟨?_, ?_, ⟨?_, by norm_num⟩, ⟨?_, by norm_num⟩⟩
  · intro mg ml fl wtS r h
    cases wtS with
    | none =>
      simp only [renderGammaCompute] at h
      split_ifs at h with h0
      cases h
      exact ⟨rfl, rfl, fun _ => rfl, fun w hw => Option.noConfusion hw,
        fun w hw => Option.noConfusion hw⟩
    | some w0 =>
      simp only [renderGammaCompute] at h
      split_ifs at h with h0 h1 h2
      · cases h
        refine ⟨rfl, rfl, fun hc => Option.noConfusion hc, ?_, ?_⟩
        · intro w hw hle
          injection hw with hww
          subst hww
          exact absurd h1 (not_lt.mpr hle)
        · intro w hw _
          injection hw with hww
          subst hww
          rfl
      · cases h
        refine ⟨rfl, rfl, fun hc => Option.noConfusion hc, ?_, ?_⟩
        · intro w hw _
          rfl
        · intro w hw hpos
          injection hw with hww
          subst hww
          exact absurd hpos h1
  · intro a w s sex v cat h
    rcases hc : calc_ccr ((roundHalfEven a : ℤ) : ℚ) (roundTo 1 w) (roundTo 2 s) sex
      with _ | val
    · simp only [renderCcrCompute, hc, renderCcrDisplay] at h
      cases h
    · simp only [renderCcrCompute, hc, renderCcrDisplay] at h
      injection h with h1 h2
      subst h1
      subst h2
      exact ⟨rfl, rfl⟩
  · have e1 : roundTo 1 (126/25 : ℚ) = 5 := by norm_num [roundTo, roundHalfEven]
    have e2 : roundTo 1 (50 : ℚ) = 50 := by norm_num [roundTo, roundHalfEven]
    have e3 : roundTo 1 (5 : ℚ) = 5 := by norm_num [roundTo, roundHalfEven]
    simp only [renderGammaCompute, e1, e2, e3]
    norm_num
  · have e1 : ((roundHalfEven (60 : ℚ) : ℤ) : ℚ) = 60 := by
      norm_num [roundHalfEven]
    have e2 : roundTo 1 (60 : ℚ) = 60 := by norm_num [roundTo, roundHalfEven]
    have e3 : roundTo 2 (987/1000 : ℚ) = 99/100 := by norm_num [roundTo, roundHalfEven]
    have hc : calc_ccr ((roundHalfEven (60 : ℚ) : ℤ) : ℚ) (roundTo 1 60)
        (roundTo 2 (987/1000)) "男性" = some (4800 / (72 * (99/100))) := by
      rw [e1, e2, e3, calc_ccr]
      norm_num
      decide
    simp only [renderCcrCompute, hc, renderCcrDisplay]
    have hcat : ccrCategory (4800 / (72 * (99/100))) = "正常 (>60)" := by
      unfold ccrCategory
      rw [if_neg (by norm_num), if_neg (by norm_num)]
    rw [hcat]

/-- C10 witness: the rounding lemmas applied at the concrete inputs
mass 5.04 mg (γ form) and age 60 / weight 60 / Scr 0.987 (CCr form). -/
theorem c10_rounding_witness :
    (⟨1/10, 1/2, none⟩ : GammaResult).conc = roundTo 1 (126/25) / roundTo 1 50 ∧
    calc_ccr ((roundHalfEven (60 : ℚ) : ℤ) : ℚ) (roundTo 1 60) (roundTo 2 (987/1000)) "男性"
      = some (4800 / (72 * (99/100))) :=
  ⟨(c10_rounding.1 (126/25) 50 5 none ⟨1/10, 1/2, none⟩ c10_rounding.2.2.1.1).1,
   (c10_rounding.2.1 60 60 (987/1000) "男性" (4800 / (72 * (99/100))) "正常 (>60)"
      c10_rounding.2.2.2.1).1⟩

end ICUTool
